import Mathlib

/-!
Verification of the financial-formula library `src/functions/fixed_income.py`
(repository franloza/financial-engineering) against its natural-language
specification.

The Python module is a set of pure numeric functions over floats.  We embed it
shallowly over the real numbers `ℝ` (exact arithmetic).  Python's numeric
primitives are fallible:

* float division `a / b` raises `ZeroDivisionError` when `b = 0`
  (Python does NOT return an IEEE-754 infinity for float division by zero);
* float power `b ** e` raises `ZeroDivisionError` when `b = 0` and `e < 0`,
  returns a complex (non-real) number when `b < 0` and `e` is not an integer,
  and otherwise returns a real value
  (`0.0 ** 0.0 = 1.0`, `0.0 ** e = 0.0` for `e > 0`,
  `b ** e = b^⌊e⌋` for `b < 0` with integral `e`, and the usual real power
  `b ^ e` for `b > 0`).

We model these with `Option ℝ`: `none` stands for a call that does not return
a real number normally (an exception propagating, or a complex result).  Every
library function is then translated from the source line by line, threading
`Option` through the arithmetic in the order Python evaluates it.
-/

/-- Python float division: `a / b`, raising `ZeroDivisionError` (modelled as
`none`) when the divisor is zero. -/
noncomputable def pydiv (a b : ℝ) : Option ℝ :=
  if b = 0 then none else some (a / b)

/-- Python float power `b ** e`.  For a positive base this is the real power
`b ^ e` (`Real.rpow`).  For base `0`: `0 ** 0 = 1`, `0 ** e = 0` for `e > 0`,
and `ZeroDivisionError` (`none`) for `e < 0`.  For a negative base: the real
value `b ^ ⌊e⌋` when the exponent is integral, and a complex — hence non-real,
modelled `none` — result otherwise. -/
noncomputable def pypow (b e : ℝ) : Option ℝ :=
  if 0 < b then some (b ^ e)
  else if b = 0 then
    (if 0 < e then some 0 else if e = 0 then some 1 else none)
  else if ((⌊e⌋ : ℤ) : ℝ) = e then some (b ^ (⌊e⌋ : ℤ)) else none

/-- `simple_interest_fv(P, r, t)`: returns `P*(1 + t*r)`. -/
noncomputable def simple_interest_fv (P r t : ℝ) : ℝ :=
  P * (1 + t * r)

/-- `simple_interest_pv(V_t, r, t)`: returns `V_t * (1/(1 + t * r))`. -/
noncomputable def simple_interest_pv (V_t r t : ℝ) : Option ℝ :=
  (pydiv 1 (1 + t * r)).map (fun x => V_t * x)

/-- `perpetuity_pv(C, r)`: returns `C / r`. -/
noncomputable def perpetuity_pv (C r : ℝ) : Option ℝ :=
  pydiv C r

/-- `compounded_interest_fv(P, r, t, m)`: returns `P*(1 + r/m)**(t*m)`. -/
noncomputable def compounded_interest_fv (P r t m : ℝ) : Option ℝ :=
  (pydiv r m).bind fun q => (pypow (1 + q) (t * m)).map fun x => P * x

/-- `compounded_interest_pv(V_t, r, t, m)`: returns
`V_t*(1/(1 + r/m)**(t*m))`. -/
noncomputable def compounded_interest_pv (V_t r t m : ℝ) : Option ℝ :=
  (pydiv r m).bind fun q =>
    (pypow (1 + q) (t * m)).bind fun x =>
      (pydiv 1 x).map fun y => V_t * y

/-- `_annuity_pv_factor(r, n)`: returns `(1 - (1/(1+r)**n)) / r`.  The Python
argument `n` is an `int`, so the exponent handed to `**` is integral. -/
noncomputable def annuity_pv_factor (r : ℝ) (n : ℤ) : Option ℝ :=
  (pypow (1 + r) (n : ℝ)).bind fun p =>
    (pydiv 1 p).bind fun x =>
      pydiv (1 - x) r

/-- `annuity_pv(C, r, n)`: returns `C * _annuity_pv_factor(r, n)`. -/
noncomputable def annuity_pv (C r : ℝ) (n : ℤ) : Option ℝ :=
  (annuity_pv_factor r n).map fun f => C * f

/-- `annuity_payment(P, r, n)`: returns `P / _annuity_pv_factor(r, n)`. -/
noncomputable def annuity_payment (P r : ℝ) (n : ℤ) : Option ℝ :=
  (annuity_pv_factor r n).bind fun f => pydiv P f

/-- `continuous_compounding_fv(P, r, t)`: returns `math.exp(t*r)*P`.
`math.exp` is total on the reals, so no `Option` is needed. -/
noncomputable def continuous_compounding_fv (P r t : ℝ) : ℝ :=
  Real.exp (t * r) * P

/-- `continuous_compounding_pv(V_t, r, t)`: returns `V_t * math.exp(-t*r)`. -/
noncomputable def continuous_compounding_pv (V_t r t : ℝ) : ℝ :=
  V_t * Real.exp (-(t * r))

/-- The value `effective_rate` hands back to its caller: either a float, or —
on the invalid-method branch — a `ValueError` object RETURNED (not raised) as
the ordinary return value. -/
inductive PyResult where
  | val : ℝ → PyResult
  | valueError : String → PyResult

/-- `effective_rate(r, m=1, method="continuous")`:
if `method == "continuous"` returns `math.exp(r) - 1`;
elif `method == "periodic"` returns `(1 + r/m)**m - 1`;
else returns (does not raise) `ValueError("The compounding method is not valid")`. -/
noncomputable def effective_rate (r m : ℝ) (method : String) : Option PyResult :=
  if method = "continuous" then some (.val (Real.exp r - 1))
  else if method = "periodic" then
    (pydiv r m).bind fun q => (pypow (1 + q) m).map fun x => .val (x - 1)
  else some (.valueError "The compounding method is not valid")

/-- A call `effective_rate(r)` with the optional parameters left unspecified:
the source signature declares the defaults `m=1` and `method="continuous"`. -/
noncomputable def effective_rate_defaults (r : ℝ) : Option PyResult :=
  effective_rate r 1 "continuous"

/-! ## Helper lemmas about the Python primitives -/

theorem pydiv_of_ne (a b : ℝ) (hb : b ≠ 0) : pydiv a b = some (a / b) := by
  simp [pydiv, hb]

theorem pydiv_zero (a : ℝ) : pydiv a 0 = none := by
  simp [pydiv]

theorem pypow_of_pos (b e : ℝ) (hb : 0 < b) : pypow b e = some (b ^ e) := by
  simp [pypow, hb]

/-- For a nonzero base and an integral exponent, Python `**` returns the
real integer power. -/
theorem pypow_intCast (b : ℝ) (n : ℤ) (hb : b ≠ 0) :
    pypow b (n : ℝ) = some (b ^ n) := by
  rcases lt_trichotomy 0 b with hpos | hzero | hneg
  · rw [pypow_of_pos b _ hpos, Real.rpow_intCast]
  · exact absurd hzero.symm hb
  · have hnotpos : ¬ 0 < b := not_lt.mpr (le_of_lt hneg)
    have hfloor : ((⌊(n : ℝ)⌋ : ℤ) : ℝ) = (n : ℝ) := by
      rw [Int.floor_intCast]
    rw [pypow, if_neg hnotpos, if_neg hb, if_pos hfloor, Int.floor_intCast]

theorem pypow_zero_base_of_pos (e : ℝ) (he : 0 < e) : pypow 0 e = some 0 := by
  rw [pypow, if_neg (lt_irrefl 0), if_pos rfl, if_pos he]

theorem pypow_exp_zero (b : ℝ) : pypow b 0 = some 1 := by
  rcases lt_trichotomy 0 b with hpos | hz | hneg
  · rw [pypow_of_pos _ _ hpos, Real.rpow_zero]
  · rw [pypow, if_neg (hz ▸ lt_irrefl 0), if_pos hz.symm, if_neg (lt_irrefl 0), if_pos rfl]
  · rw [pypow, if_neg (not_lt.mpr hneg.le), if_neg (ne_of_lt hneg),
      if_pos (by rw [Int.floor_zero, Int.cast_zero]), Int.floor_zero, zpow_zero]

/-! ## Claim theorems -/

/-- C1: the spec requires `effective_rate` with a method outside
{"continuous", "periodic"} to signal an invalid-argument failure rather than
complete with a normal return value.  The source instead COMPLETES NORMALLY,
returning the `ValueError` object itself as its return value — the defect the
spec's §9 describes.  This theorem evaluates the code at the failing input. -/
theorem C1_effective_rate_bogus_returns_error_value :
    effective_rate 0.05 1 "bogus" =
      some (PyResult.valueError "The compounding method is not valid") := by
  rw [effective_rate, if_neg (by decide), if_neg (by decide)]

/-- C2 counterexample: the claim says the reference completes normally on
division-by-zero inputs, propagating IEEE-754 infinity/NaN.  It does not:
Python float division by zero raises `ZeroDivisionError`, so
`perpetuity_pv(1, 0)` does not return a number (modelled: `none`). -/
theorem C2_counterexample : perpetuity_pv 1 0 = none := by
  rw [perpetuity_pv, pydiv_zero]

/-- C2 (amended): on every division-by-zero input listed by the claim
(`perpetuity_pv` with r = 0, `compounded_interest_fv`/`compounded_interest_pv`
with m = 0, `_annuity_pv_factor` — hence `annuity_pv` and `annuity_payment` —
with r = 0) the reference raises `ZeroDivisionError` (modelled: `none`)
instead of completing normally, and this raising policy is uniform across all
the formulas. -/
theorem C2_division_by_zero_raises :
    (∀ C : ℝ, perpetuity_pv C 0 = none) ∧
    (∀ P r t : ℝ, compounded_interest_fv P r t 0 = none) ∧
    (∀ V_t r t : ℝ, compounded_interest_pv V_t r t 0 = none) ∧
    (∀ n : ℤ, annuity_pv_factor 0 n = none) ∧
    (∀ (C : ℝ) (n : ℤ), annuity_pv C 0 n = none) ∧
    (∀ (P : ℝ) (n : ℤ), annuity_payment P 0 n = none) := by
  have hfac : ∀ n : ℤ, annuity_pv_factor 0 n = none := by
    intro n
    have h10 : (1 : ℝ) + 0 = 1 := by norm_num
    rw [annuity_pv_factor, h10, pypow_of_pos _ _ one_pos, Real.one_rpow,
      Option.some_bind, pydiv_of_ne _ _ one_ne_zero, Option.some_bind, pydiv_zero]
  refine ⟨fun C => by rw [perpetuity_pv, pydiv_zero],
    fun P r t => by rw [compounded_interest_fv, pydiv_zero, Option.none_bind],
    fun V r t => by rw [compounded_interest_pv, pydiv_zero, Option.none_bind],
    hfac,
    fun C n => by rw [annuity_pv, hfac, Option.map_none'],
    fun P n => by rw [annuity_payment, hfac, Option.none_bind]⟩

/-- C4: `simple_interest_fv(P, r, t)` equals `P * (1 + t*r)`, and for
`1 + t*r ≠ 0`, `simple_interest_pv(V_t, r, t)` equals `V_t / (1 + t*r)` —
the code's `V_t * (1/(1 + t*r))` coincides with the stated quotient. -/
theorem C4_simple_interest_formulas :
    (∀ P r t : ℝ, simple_interest_fv P r t = P * (1 + t * r)) ∧
    (∀ V_t r t : ℝ, 1 + t * r ≠ 0 →
      simple_interest_pv V_t r t = some (V_t / (1 + t * r))) := by
  constructor
  · intro P r t; rfl
  · intro V r t h
    rw [simple_interest_pv, pydiv_of_ne _ _ h, Option.map_some', mul_one_div]

/-- C4 witness: the formulas evaluated at concrete inputs. -/
theorem C4_witness :
    simple_interest_fv 2 3 4 = 2 * (1 + 4 * 3) ∧
    ((1 : ℝ) + 1 * 1 ≠ 0 ∧ simple_interest_pv 5 1 1 = some (5 / (1 + 1 * 1))) :=
  ⟨C4_simple_interest_formulas.1 2 3 4,
   by norm_num, C4_simple_interest_formulas.2 5 1 1 (by norm_num)⟩

/-- C5: for `1 + t*r ≠ 0`,
`simple_interest_pv(simple_interest_fv(P, r, t), r, t)` equals `P` exactly
over the exact-arithmetic embedding. -/
theorem C5_simple_interest_roundtrip (P r t : ℝ) (h : 1 + t * r ≠ 0) :
    simple_interest_pv (simple_interest_fv P r t) r t = some P := by
  rw [simple_interest_pv, pydiv_of_ne _ _ h, Option.map_some', simple_interest_fv]
  congr 1
  field_simp

/-- C5 witness: the round trip evaluated at P = 7, r = 1, t = 1. -/
theorem C5_witness :
    (1 : ℝ) + 1 * 1 ≠ 0 ∧
      simple_interest_pv (simple_interest_fv 7 1 1) 1 1 = some 7 :=
  ⟨by norm_num, C5_simple_interest_roundtrip 7 1 1 (by norm_num)⟩

/-- C10: with method "continuous", `effective_rate` never reads the frequency
argument: its result is the same for any two frequencies. -/
theorem C10_continuous_ignores_frequency (r m₁ m₂ : ℝ) :
    effective_rate r m₁ "continuous" = effective_rate r m₂ "continuous" := by
  rw [effective_rate, effective_rate, if_pos rfl, if_pos rfl]

/-- C3 counterexample: the claim quantifies the periodic formula over EVERY
frequency m, but at m = 0 the code raises `ZeroDivisionError` on `r/m`
(modelled: `none`) instead of returning the value of the formula. -/
theorem C3_counterexample :
    effective_rate 1 0 "periodic" ≠
      some (PyResult.val ((1 + 1 / 0 : ℝ) ^ (0 : ℝ) - 1)) := by
  rw [effective_rate, if_neg (by decide), if_pos rfl, pydiv_zero, Option.none_bind]
  simp

/-- C3 (amended): `effective_rate(r, m, "continuous")` equals `e^r - 1` for
every r and m; `effective_rate(r, m, "periodic")` equals `(1 + r/m)^m - 1`
whenever `m ≠ 0` and `1 + r/m > 0` (at m = 0 the code raises); and the source
defaults are m = 1 and method = "continuous", so a defaulted call returns
`e^r - 1`. -/
theorem C3_effective_rate_formulas :
    (∀ r m : ℝ, effective_rate r m "continuous" =
      some (PyResult.val (Real.exp r - 1))) ∧
    (∀ r m : ℝ, m ≠ 0 → 0 < 1 + r / m →
      effective_rate r m "periodic" =
        some (PyResult.val ((1 + r / m) ^ m - 1))) ∧
    (∀ r : ℝ, effective_rate_defaults r = some (PyResult.val (Real.exp r - 1))) := by
  refine ⟨?_, ?_, ?_⟩
  · intro r m
    rw [effective_rate, if_pos rfl]
  · intro r m hm hb
    rw [effective_rate, if_neg (by decide), if_pos rfl, pydiv_of_ne _ _ hm,
      Option.some_bind, pypow_of_pos _ _ hb, Option.map_some']
  · intro r
    rw [effective_rate_defaults, effective_rate, if_pos rfl]

/-- C3 witness: the periodic branch evaluated at r = 1, m = 1. -/
theorem C3_witness :
    (1 : ℝ) ≠ 0 ∧ (0 : ℝ) < 1 + 1 / 1 ∧
      effective_rate 1 1 "periodic" =
        some (PyResult.val ((1 + 1 / 1 : ℝ) ^ (1 : ℝ) - 1)) :=
  ⟨by norm_num, by norm_num,
   C3_effective_rate_formulas.2.1 1 1 (by norm_num) (by norm_num)⟩

/-- C6: for r ≠ 0, m ≠ 0 and 1 + r/m > 0,
`compounded_interest_pv(compounded_interest_fv(P, r, t, m), r, t, m)` equals
`P` exactly: the two functions are inverses for the same (r, t, m). -/
theorem C6_compound_interest_roundtrip (P r t m : ℝ)
    (hr : r ≠ 0) (hm : m ≠ 0) (hb : 0 < 1 + r / m) :
    (compounded_interest_fv P r t m).bind
      (fun V_t => compounded_interest_pv V_t r t m) = some P := by
  have hq := pydiv_of_ne r m hm
  have hp := pypow_of_pos (1 + r / m) (t * m) hb
  have hpow_pos : 0 < (1 + r / m) ^ (t * m) := Real.rpow_pos_of_pos hb _
  rw [compounded_interest_fv, hq, Option.some_bind, hp, Option.map_some',
    Option.some_bind, compounded_interest_pv, hq, Option.some_bind, hp,
    Option.some_bind, pydiv_of_ne _ _ (ne_of_gt hpow_pos), Option.map_some']
  congr 1
  rw [mul_one_div, mul_div_assoc, div_self (ne_of_gt hpow_pos), mul_one]

/-- C6 witness: the round trip evaluated at P = 5, r = t = m = 1. -/
theorem C6_witness :
    (1 : ℝ) ≠ 0 ∧ (1 : ℝ) ≠ 0 ∧ (0 : ℝ) < 1 + 1 / 1 ∧
      (compounded_interest_fv 5 1 1 1).bind
        (fun V_t => compounded_interest_pv V_t 1 1 1) = some 5 :=
  ⟨by norm_num, by norm_num, by norm_num,
   C6_compound_interest_roundtrip 5 1 1 1 (by norm_num) (by norm_num) (by norm_num)⟩

/-- C9 counterexample: the claim puts no sign restriction on the principal,
but with P = -1 the future value strictly DECREASES as t*r grows from 0*1 to
1*1, so `continuous_compounding_fv` is not monotonically increasing in t*r
over all inputs. -/
theorem C9_counterexample :
    (0 : ℝ) * 1 < 1 * 1 ∧
      continuous_compounding_fv (-1) 1 1 < continuous_compounding_fv (-1) 1 0 := by
  constructor
  · norm_num
  · rw [continuous_compounding_fv, continuous_compounding_fv]
    have h : Real.exp 0 < Real.exp 1 := Real.exp_lt_exp.mpr (by norm_num)
    rw [Real.exp_zero] at h
    have h1 : (1 : ℝ) * 1 = 1 := by norm_num
    have h0 : (0 : ℝ) * 1 = 0 := by norm_num
    rw [h1, h0, Real.exp_zero]
    nlinarith [h]

/-- C9 (amended): for a POSITIVE principal P, `continuous_compounding_fv` is
strictly increasing in the product t*r, and for a positive future value V_t,
`continuous_compounding_pv` is strictly decreasing in t*r. -/
theorem C9_continuous_monotone :
    (∀ P r₁ t₁ r₂ t₂ : ℝ, 0 < P → t₁ * r₁ < t₂ * r₂ →
      continuous_compounding_fv P r₁ t₁ < continuous_compounding_fv P r₂ t₂) ∧
    (∀ V_t r₁ t₁ r₂ t₂ : ℝ, 0 < V_t → t₁ * r₁ < t₂ * r₂ →
      continuous_compounding_pv V_t r₂ t₂ < continuous_compounding_pv V_t r₁ t₁) := by
  constructor
  · intro P r₁ t₁ r₂ t₂ hP h
    rw [continuous_compounding_fv, continuous_compounding_fv]
    exact mul_lt_mul_of_pos_right (Real.exp_lt_exp.mpr h) hP
  · intro V r₁ t₁ r₂ t₂ hV h
    rw [continuous_compounding_pv, continuous_compounding_pv]
    exact mul_lt_mul_of_pos_left (Real.exp_lt_exp.mpr (by linarith)) hV

/-- C9 witness: both monotonicity statements evaluated at concrete inputs. -/
theorem C9_witness :
    ((0 : ℝ) < 1 ∧ (0 : ℝ) * 0 < 1 * 1 ∧
      continuous_compounding_fv 1 0 0 < continuous_compounding_fv 1 1 1) ∧
    ((0 : ℝ) < 2 ∧ (0 : ℝ) * 0 < 1 * 1 ∧
      continuous_compounding_pv 2 1 1 < continuous_compounding_pv 2 0 0) :=
  ⟨⟨by norm_num, by norm_num,
    C9_continuous_monotone.1 1 0 0 1 1 (by norm_num) (by norm_num)⟩,
   ⟨by norm_num, by norm_num,
    C9_continuous_monotone.2 2 0 0 1 1 (by norm_num) (by norm_num)⟩⟩

/-- C7 counterexample: the claim states r ≠ 0 as the only precondition, but at
r = -1, n = 1 the code's `1/(1+r)**n` divides by `(1+r)**n = 0` and raises
(modelled: `none`), so the factor does not equal the spec's formula there. -/
theorem C7_counterexample :
    annuity_pv_factor (-1) 1 ≠
      some ((1 - (1 + (-1) : ℝ) ^ (-1 : ℤ)) / (-1)) := by
  have hbase : (1 + (-1) : ℝ) = 0 := by norm_num
  have hnone : annuity_pv_factor (-1) 1 = none := by
    rw [annuity_pv_factor, hbase,
      pypow_zero_base_of_pos _ (by norm_num : (0:ℝ) < ((1:ℤ) : ℝ)),
      Option.some_bind, pydiv_zero, Option.none_bind]
  rw [hnone]
  simp

/-- C7 (amended): for every r with r ≠ 0 and 1 + r ≠ 0 and every n ≥ 0,
`_annuity_pv_factor(r, n)` equals `(1 - (1+r)^(-n)) / r`; and the n = 0 case
yields 0 for EVERY r ≠ 0 (including r = -1, since Python `0**0 = 1`). -/
theorem C7_annuity_factor_formula :
    (∀ (r : ℝ) (n : ℤ), r ≠ 0 → 1 + r ≠ 0 → 0 ≤ n →
      annuity_pv_factor r n = some ((1 - (1 + r) ^ (-n)) / r)) ∧
    (∀ r : ℝ, r ≠ 0 → annuity_pv_factor r 0 = some 0) := by
  constructor
  · intro r n hr hb _
    have hbn : (1 + r) ^ n ≠ 0 := zpow_ne_zero n hb
    rw [annuity_pv_factor, pypow_intCast _ _ hb, Option.some_bind,
      pydiv_of_ne _ _ hbn, Option.some_bind, pydiv_of_ne _ _ hr]
    congr 1
    rw [one_div, zpow_neg]
  · intro r hr
    have hcast : ((0 : ℤ) : ℝ) = (0 : ℝ) := Int.cast_zero
    rw [annuity_pv_factor, hcast, pypow_exp_zero, Option.some_bind,
      pydiv_of_ne _ _ one_ne_zero, Option.some_bind, pydiv_of_ne _ _ hr]
    norm_num

/-- C7 witness: the factor formula evaluated at r = 1, n = 2, and the n = 0
case at r = 2. -/
theorem C7_witness :
    ((1 : ℝ) ≠ 0 ∧ (1 : ℝ) + 1 ≠ 0 ∧ (0 : ℤ) ≤ 2 ∧
      annuity_pv_factor 1 2 = some ((1 - (1 + 1 : ℝ) ^ (-2 : ℤ)) / 1)) ∧
    ((2 : ℝ) ≠ 0 ∧ annuity_pv_factor 2 0 = some 0) :=
  ⟨⟨by norm_num, by norm_num, by norm_num,
    C7_annuity_factor_formula.1 1 2 (by norm_num) (by norm_num) (by norm_num)⟩,
   ⟨by norm_num, C7_annuity_factor_formula.2 2 (by norm_num)⟩⟩

/-- C8 counterexample: at C = 1, r = -2, n = 2 the annuity factor is 0
(because `(1+r)^n = (-1)^2 = 1`), so `annuity_pv` returns 0 and
`annuity_payment` then divides by the zero factor and raises (modelled:
`none`) instead of recovering C = 1. -/
theorem C8_counterexample :
    (annuity_pv 1 (-2) 2).bind (fun P => annuity_payment P (-2) 2) ≠ some 1 := by
  have hbase : (1 + (-2) : ℝ) = -1 := by norm_num
  have hpow : pypow (1 + (-2) : ℝ) ((2 : ℤ) : ℝ) = some 1 := by
    rw [hbase, pypow_intCast _ _ (by norm_num : (-1 : ℝ) ≠ 0)]
    norm_num
  have hfac : annuity_pv_factor (-2) 2 = some 0 := by
    rw [annuity_pv_factor, hpow, Option.some_bind,
      pydiv_of_ne _ _ one_ne_zero, Option.some_bind,
      pydiv_of_ne _ _ (by norm_num : (-2 : ℝ) ≠ 0)]
    norm_num
  rw [annuity_pv, hfac, Option.map_some', Option.some_bind, annuity_payment,
    hfac, Option.some_bind, mul_zero, pydiv_zero]
  simp

/-- C8 (amended): for r ≠ 0, n ≥ 1, provided also 1 + r ≠ 0 and
`(1+r)^n ≠ 1` (that is, the annuity factor is defined and nonzero),
`annuity_payment(annuity_pv(C, r, n), r, n)` equals C exactly. -/
theorem C8_annuity_roundtrip (C r : ℝ) (n : ℤ)
    (hr : r ≠ 0) (hn : 1 ≤ n) (hb : 1 + r ≠ 0) (h1 : (1 + r) ^ n ≠ 1) :
    (annuity_pv C r n).bind (fun P => annuity_payment P r n) = some C := by
  have hbn : (1 + r) ^ n ≠ 0 := zpow_ne_zero n hb
  have hfac : annuity_pv_factor r n = some ((1 - 1 / (1 + r) ^ n) / r) := by
    rw [annuity_pv_factor, pypow_intCast _ _ hb, Option.some_bind,
      pydiv_of_ne _ _ hbn, Option.some_bind, pydiv_of_ne _ _ hr]
  have hfne : (1 - 1 / (1 + r) ^ n) / r ≠ 0 := by
    rw [div_ne_zero_iff]
    refine ⟨fun h => ?_, hr⟩
    have h2 : (1 : ℝ) / (1 + r) ^ n = 1 := by linarith
    rw [div_eq_one_iff_eq hbn] at h2
    exact h1 h2.symm
  rw [annuity_pv, hfac, Option.map_some', Option.some_bind, annuity_payment,
    hfac, Option.some_bind, pydiv_of_ne _ _ hfne, mul_div_assoc,
    div_self hfne, mul_one]

/-- C8 witness: the round trip evaluated at C = 3, r = 1, n = 1. -/
theorem C8_witness :
    (1 : ℝ) ≠ 0 ∧ (1 : ℤ) ≤ 1 ∧ (1 : ℝ) + 1 ≠ 0 ∧ ((1 : ℝ) + 1) ^ (1 : ℤ) ≠ 1 ∧
      (annuity_pv 3 1 1).bind (fun P => annuity_payment P 1 1) = some 3 :=
  ⟨by norm_num, by norm_num, by norm_num, by norm_num,
   C8_annuity_roundtrip 3 1 1 (by norm_num) (by norm_num) (by norm_num) (by norm_num)⟩
